import Mathlib

/-!
Shallow embedding of the js.rs evaluation core (src/eval/mod.rs, src/js_error.rs).

The evaluator, its error taxonomy and its use of the scope/heap store are
translated from the source.  Components that the repository only declares
(the `french_press` scope manager, `jsrs_common`'s value types and coercions,
the `number`/`var`/`macros` sibling modules and the external parser) are
modelled from the specification, as marked on each definition.

Rust `Result`-errors are embedded as `Fault.err`; a Rust `panic!`, `unwrap`,
`expect` or `unimplemented!` — which aborts the process instead of returning
an error — is embedded as `Fault.panic`.  Recursion through stored function
bodies and `while` loops is not structurally terminating, so every evaluation
function takes a fuel argument; exhaustion is the separate `Fault.outOfFuel`,
distinguishable from anything the program itself does.

Numbers: the source uses IEEE-754 `f64`.  None of the properties considered
here depends on rounding, `NaN` or infinities (the spec lists numeric edge
cases as a non-goal), so numbers are embedded as integers.
-/

namespace JsRs

/-- Lexical binding of a value: the name it is currently known by, possibly
anonymous (jsrs_common `Binding`; modelled from the spec §3).  Anonymous
bindings carry the opaque counter value that generated them. -/
inductive Binding where
  | anon (n : Nat)
  | named (s : String)
deriving DecidableEq, Repr

/-- Heap-pointer tag: the kind of heap object a pointer-tagged value refers to
(jsrs_common `JsPtrTag`). -/
inductive JsPtrTag where
  | JsFn (name : Option String)
  | JsObj
  | JsStr
  | NativeFn
deriving DecidableEq, Repr

/-- Scalar-or-tag half of a value (jsrs_common `JsType`). -/
inductive JsType where
  | JsBool (b : Bool)
  | JsUndef
  | JsNull
  | JsNum (n : Int)
  | JsPtr (tag : JsPtrTag)
deriving DecidableEq, Repr

/-- A value: scalar/tag content plus its lexical binding and its unique
identity (jsrs_common `JsVar`; shape from the spec §3). -/
structure JsVar where
  binding : Binding
  unique : Binding
  t : JsType
deriving DecidableEq, Repr

/-- Modelled from the spec: fresh values are anonymous and get a fresh opaque
unique identity (jsrs_common `JsVar::new`); `n` is drawn from the store's
counter by the caller. -/
def JsVar.new (t : JsType) (n : Nat) : JsVar :=
  { binding := .anon n, unique := .anon n, t := t }

/-- Modelled from the spec: `JsVar::bind` creates a value already carrying a
name, with a fresh unique identity. -/
def JsVar.bind (name : String) (t : JsType) (n : Nat) : JsVar :=
  { binding := .named name, unique := .anon n, t := t }

/-- Modelled from the spec §4.1 rebinding rule: `JsVar::deanonymize` attaches
a name to a value that was produced anonymously, migrating its unique identity
to the name; a value that already carries a name is left unchanged. -/
def deanonymize (v : JsVar) (name : String) : JsVar :=
  match v.binding with
  | .anon _ => { v with binding := .named name, unique := .named name }
  | .named _ => v

/-- Object property key (jsrs_common `JsKey`): only string keys exist. -/
structure JsStrStruct where
  text : String
deriving DecidableEq, Repr

inductive JsKey where
  | JsStr (s : JsStrStruct)
deriving DecidableEq, Repr

/-- Binary operators reaching `eval_binop` (jsrs_common AST; only the
arithmetic operators named by the spec §8 are modelled). -/
inductive BinOp where
  | Plus
  | Minus
  | Star
  | Slash
deriving DecidableEq, Repr

mutual
/-- Expression AST (jsrs_common `Exp`), shapes as enumerated in spec §4.2. -/
inductive Exp where
  | BinExp (e1 : Exp) (op : BinOp) (e2 : Exp)
  | Bool (b : Bool)
  | Call (callee : Exp) (args : List Exp)
  | Defun (name : Option String) (params : List String) (body : Stmt)
  | InstanceVar (instance_exp : Exp) (var : String)
  | Null
  | Float (n : Int)
  | Neg (e : Exp)
  | Pos (e : Exp)
  | PostDec (e : Exp)
  | PostInc (e : Exp)
  | PreDec (e : Exp)
  | PreInc (e : Exp)
  | NewObject (ctor : Exp) (arg : Exp)
  | Object (fields : List (String × Exp))
  | Str (s : String)
  | TypeOf (e : Exp)
  | Undefined
  | Var (name : String)

/-- Statement AST (jsrs_common `Stmt`), shapes as enumerated in spec §4.1. -/
inductive Stmt where
  | Assign (name : String) (e : Exp)
  | BareExp (e : Exp)
  | Decl (name : String) (e : Exp)
  | If (cond : Exp) (if_block : Stmt) (else_block : Option Stmt)
  | Empty
  | Ret (e : Exp)
  | Seq (s1 : Stmt) (s2 : Stmt)
  | Throw (e : Exp)
  | Try (body : Stmt)
  | While (cond : Exp) (body : Stmt)
end

/-- Function heap payload (jsrs_common `JsFnStruct`): parameter names, body,
optional declared name. -/
structure JsFnStruct where
  name : Option String
  params : List String
  stmt : Stmt

/-- Object heap payload (jsrs_common `JsObjStruct`): ordered mapping from
property key to value. -/
structure JsObjStruct where
  dict : List (JsKey × JsVar)

/-- Heap-resident payload paired with a pointer-tagged value (jsrs_common
`JsPtrEnum`).  Native functions are opaque host callables; they are embedded
as opaque handles, interpreted by a host function supplied to the evaluator. -/
inductive JsPtrEnum where
  | JsObj (o : JsObjStruct)
  | JsStr (s : JsStrStruct)
  | JsFn (f : JsFnStruct)
  | NativeFn (id : Nat)

/-- Assoc lookup in an object payload (`obj_struct.dict.get`). -/
def JsObjStruct.get (o : JsObjStruct) (k : JsKey) : Option JsVar :=
  (o.dict.find? (fun kv => decide (kv.1 = k))).map (fun kv => kv.2)

/-- The `(Value, Option<HeapRef>)` pair every expression evaluates to
(`var::JsVarValue`, modelled from the spec §3 `EvaluationResult`). -/
abbrev JsVarValue := JsVar × Option JsPtrEnum

/-- Optional function-return signal (`var::JsReturnValue`). -/
abbrev JsReturnValue := Option JsVarValue

/-- Scope/heap failure reported by the external store (`GcError`, modelled
from the spec §7 StoreFault: lookup/allocation faults). -/
inductive GcError where
  | unresolvedBinding (b : Binding)
  | emptyScopeStack

/-- The evaluator's structured error type (src/js_error.rs `JsError`). -/
inductive JsError where
  | ParseError (s : String)
  | GcError (e : GcError)
  | TypeError (s : String)
  | ReferenceError (s : String)
  | JsVar (v : JsVarValue)
  | UnimplementedError (s : String)

/-- How an evaluation can fail: a structured error returned to the caller
(Rust `Err`), a process abort (Rust `panic!` / `unwrap` / `expect` /
`unimplemented!`), or exhaustion of the embedding's fuel. -/
inductive Fault where
  | err (e : JsError)
  | panic (msg : String)
  | outOfFuel

/-- One stored slot of the scope store: a value and its optional heap payload. -/
structure Slot where
  var : JsVar
  ptr : Option JsPtrEnum

/-- Scope operations recorded by the modelled store, so that statements about
which scope calls the evaluator makes (and with which arguments) can be
stated. -/
inductive StoreOp where
  | pushScope
  | pushClosureScope (id : Binding)
  | popScope (retain : Option Binding) (yieldHint : Bool)

/-- Modelled from the spec §6: the external GC-backed scope store
(`french_press::ScopeManager`).  `frames` is the scope stack, innermost
first; `saved` holds slots retained past a scope pop because a closure
escaped with their identity; `next` is the opaque-id counter backing fresh
bindings/identities; `log` records scope operations, most recent first. -/
structure ScopeManager where
  frames : List (List Slot)
  saved : List Slot
  next : Nat
  log : List StoreOp

/-- The initial store: one (global) scope frame, nothing allocated. -/
def initSM : ScopeManager :=
  { frames := [[]], saved := [], next := 0, log := [] }

/-- Draw a fresh opaque id from the store's counter. -/
def ScopeManager.fresh (sm : ScopeManager) : Nat × ScopeManager :=
  (sm.next, { sm with next := sm.next + 1 })

/-- First slot with the given binding in one frame, innermost-allocation
first. -/
def findSlot : List Slot → Binding → Option Slot
  | [], _ => none
  | sl :: rest, b => if sl.var.binding = b then some sl else findSlot rest b

/-- First slot with the given binding along the scope chain. -/
def findFrames : List (List Slot) → Binding → Option Slot
  | [], _ => none
  | f :: rest, b =>
    match findSlot f b with
    | some sl => some sl
    | none => findFrames rest b

/-- Modelled from the spec §6 `load`: resolve a binding along the scope
chain; unresolved is a store fault. -/
def ScopeManager.load (sm : ScopeManager) (b : Binding) :
    Except GcError (JsVar × Option JsPtrEnum) :=
  match findFrames sm.frames b with
  | some sl => .ok (sl.var, sl.ptr)
  | none => .error (.unresolvedBinding b)

/-- Replace the first slot of a frame whose binding matches the value's
current binding. -/
def replaceSlot : List Slot → JsVar → Option JsPtrEnum → Option (List Slot)
  | [], _, _ => none
  | sl :: rest, v, p =>
    if sl.var.binding = v.binding then some ({ var := v, ptr := p } :: rest)
    else (replaceSlot rest v p).map (fun r => sl :: r)

/-- Replace, along the scope chain, the first slot whose binding matches. -/
def replaceFrames : List (List Slot) → JsVar → Option JsPtrEnum → Option (List (List Slot))
  | [], _, _ => none
  | f :: rest, v, p =>
    match replaceSlot f v p with
    | some f2 => some (f2 :: rest)
    | none => (replaceFrames rest v p).map (fun r => f :: r)

/-- Modelled from the spec §6 `store`: overwrite the stored slot for the
value's current binding; a missing slot is a store fault. -/
def ScopeManager.store (sm : ScopeManager) (v : JsVar) (p : Option JsPtrEnum) :
    Except GcError ScopeManager :=
  match replaceFrames sm.frames v p with
  | some fs => .ok { sm with frames := fs }
  | none => .error (.unresolvedBinding v.binding)

/-- Modelled from the spec §6 `allocate`: create a new binding/slot in the
current (innermost) frame. -/
def ScopeManager.alloc (sm : ScopeManager) (v : JsVar) (p : Option JsPtrEnum) :
    Except GcError ScopeManager :=
  match sm.frames with
  | [] => .error .emptyScopeStack
  | f :: rest => .ok { sm with frames := ({ var := v, ptr := p } :: f) :: rest }

/-- Modelled from the spec §6 `push_scope`: open a new lexical frame for a
named call (the source keys it by the call-site expression; the key plays no
role in the claims and is not recorded). -/
def ScopeManager.pushScope (sm : ScopeManager) : ScopeManager :=
  { sm with frames := [] :: sm.frames, log := .pushScope :: sm.log }

/-- Modelled from the spec §6 `push_closure_scope`: open a frame for an
anonymous closure invocation keyed by the captured identity, restoring the
bindings previously retained under that identity. -/
def ScopeManager.pushClosureScope (sm : ScopeManager) (id : Binding) :
    Except GcError ScopeManager :=
  .ok { sm with
        frames := (sm.saved.filter (fun sl => decide (sl.var.unique = id))) :: sm.frames,
        log := .pushClosureScope id :: sm.log }

/-- Modelled from the spec §6 `pop_scope`: close the innermost frame,
moving to the retained pool the slots whose unique identity was named as
escaping. -/
def ScopeManager.popScope (sm : ScopeManager) (retain : Option Binding)
    (yieldHint : Bool) : Except GcError ScopeManager :=
  match sm.frames with
  | [] => .error .emptyScopeStack
  | f :: rest =>
    .ok { sm with
          frames := rest,
          saved := (f.filter (fun sl => decide (retain = some sl.var.unique))) ++ sm.saved,
          log := .popScope retain yieldHint :: sm.log }

/-- Rename a slot's unique identity. -/
def renameSlot (old new : Binding) (sl : Slot) : Slot :=
  if sl.var.unique = old then { sl with var := { sl.var with unique := new } } else sl

/-- Modelled from the spec §6 `rename_binding` (`rename_closure` in the
source): migrate a unique identity so closures that captured the old identity
stay consistent.  The source discards this call's result, so it is embedded
as total. -/
def ScopeManager.renameClosure (sm : ScopeManager) (old new : Binding) : ScopeManager :=
  { sm with
    frames := sm.frames.map (fun f => f.map (renameSlot old new)),
    saved := sm.saved.map (renameSlot old new) }

/-- Modelled from the spec: `var::scalar` wraps a scalar type into a fresh
anonymous value with no heap payload. -/
def scalarNew (t : JsType) (sm : ScopeManager) : JsVarValue × ScopeManager :=
  let (n, sm2) := sm.fresh
  ((JsVar.new t n, none), sm2)

/-- Modelled from the spec glossary (jsrs_common `AsBool`): truthiness.
String emptiness is not visible at the tag level, so pointer-tagged values
are truthy. -/
def asBool : JsType → Bool
  | .JsBool b => b
  | .JsUndef => false
  | .JsNull => false
  | .JsNum n => decide (n ≠ 0)
  | .JsPtr _ => true

/-- Modelled from the spec (jsrs_common `AsNumber`): numeric coercion.  The
`NaN` results of the source are collapsed to `0` in the integer embedding. -/
def asNumber : JsType → Int
  | .JsBool b => if b then 1 else 0
  | .JsUndef => 0
  | .JsNull => 0
  | .JsNum n => n
  | .JsPtr _ => 0

/-- Modelled from the spec (jsrs_common `type_of`): runtime type category. -/
def typeOf : JsType → String
  | .JsBool _ => "boolean"
  | .JsUndef => "undefined"
  | .JsNull => "object"
  | .JsNum _ => "number"
  | .JsPtr (.JsFn _) => "function"
  | .JsPtr .JsObj => "object"
  | .JsPtr .JsStr => "string"
  | .JsPtr .NativeFn => "function"

/-- Modelled from the spec §8: `number::eval_binop` (the `number` module is
not under src/) applies arithmetic operator semantics to two scalars. -/
def eval_binop (op : BinOp) (v1 v2 : JsType) : JsType :=
  match op with
  | .Plus => .JsNum (asNumber v1 + asNumber v2)
  | .Minus => .JsNum (asNumber v1 - asNumber v2)
  | .Star => .JsNum (asNumber v1 * asNumber v2)
  | .Slash => .JsNum (asNumber v1 / asNumber v2)

/-- Modelled from the spec §4.2: the `unescape` crate resolves escape
sequences in string literals; an invalid sequence yields `none` (a fault at
the use site). -/
def unescapeChars : List Char → Option (List Char)
  | [] => some []
  | '\\' :: [] => none
  | '\\' :: c :: rest =>
    match c with
    | 'n' => (unescapeChars rest).map (fun cs => '\n' :: cs)
    | 't' => (unescapeChars rest).map (fun cs => '\t' :: cs)
    | '\\' => (unescapeChars rest).map (fun cs => '\\' :: cs)
    | '"' => (unescapeChars rest).map (fun cs => '"' :: cs)
    | _ => none
  | c :: rest => (unescapeChars rest).map (fun cs => c :: cs)

def unescape (s : String) : Option String :=
  (unescapeChars s.data).map (fun cs => String.mk cs)

/-- Modelled from the spec §4.2: the body of the `eval_float_pre_op` /
`eval_float_post_op` macros (src/eval/macros.rs is not among the sources).
The target must resolve to an already-bound numeric variable; the new value
is stored back under the same binding; the post form returns the old value,
the pre form the new one.  A non-variable target is unsupported. -/
def evalNumUpdate (target : Exp) (post : Bool) (delta : Int)
    (sm : ScopeManager) : Except Fault (JsVar × ScopeManager) :=
  match target with
  | .Var name =>
    match sm.load (.named name) with
    | .error e => .error (.err (.GcError e))
    | .ok (v, p) =>
      match v.t with
      | .JsNum f =>
        let newVar : JsVar := { v with t := .JsNum (f + delta) }
        match sm.store newVar p with
        | .error e => .error (.err (.GcError e))
        | .ok sm2 => .ok (if post then { v with t := .JsNum f } else newVar, sm2)
      | _ => .error (.err (.TypeError "invalid increment or decrement operand"))
  | _ => .error (.panic "not implemented")

/-- A host interpretation for the opaque native functions: given the handle,
the store, an optional receiver and the evaluated arguments, produce the
result value and store.  Modelled from the spec §2 (native/builtin functions
are external collaborators). -/
abbrev NativeHost := Nat → ScopeManager → Option JsVarValue → List JsVarValue →
  JsVarValue × ScopeManager

/-- A concrete host for witnesses: every native call returns `undefined`. -/
def hostUndef : NativeHost := fun _ sm _ _ => scalarNew .JsUndef sm

/-- The escaping-closure test of src/eval/mod.rs lines 201-209: the identity
to retain at scope teardown is the return value's unique identity exactly
when that value is pointer-tagged as a `JsFn`. -/
def returningClosure (v : JsReturnValue) : Option Binding :=
  match v with
  | some (var, _) =>
    match var.t with
    | .JsPtr (.JsFn _) => some var.unique
    | _ => none
  | none => none

/-- Scope opening for a selected function, src/eval/mod.rs lines 177-180:
a declared name opens a plain call scope; an anonymous function opens a
closure scope keyed by the callee value's unique identity. -/
def pushCallScope (fn : JsFnStruct) (funBinding : JsVar) (sm : ScopeManager) :
    Except GcError ScopeManager :=
  match fn.name with
  | some _ => .ok sm.pushScope
  | none => sm.pushClosureScope funBinding.unique

/-- Parameter binding, src/eval/mod.rs lines 182-192: each declared
parameter in order is bound to the next evaluated argument (or a fresh
`undefined` when the arguments ran out); the bound value's own binding is set
to the parameter name; allocation failure panics (`expect`). -/
def bindArgs : List String → List JsVarValue → ScopeManager → Except Fault ScopeManager
  | [], _, sm => .ok sm
  | p :: ps, args, sm =>
    let (arg, rest, sm1) : JsVarValue × List JsVarValue × ScopeManager :=
      match args with
      | [] =>
        let (u, sm2) := scalarNew .JsUndef sm
        (u, [], sm2)
      | a :: more => (a, more, sm)
    let argVar : JsVar := { arg.1 with binding := .named p }
    match sm1.alloc argVar arg.2 with
    | .error _ => .error (.panic "Unable to store function argument in scope")
    | .ok sm2 => bindArgs ps rest sm2

mutual

/-- `eval_stmt` (src/eval/mod.rs lines 44-138): evaluate one statement to its
value plus an optional function-return signal. -/
def evalStmt (host : NativeHost) :
    Nat → Stmt → ScopeManager →
    Except Fault ((JsVarValue × JsReturnValue) × ScopeManager)
  | 0, _, _ => .error .outOfFuel
  | fuel + 1, stmt, sm =>
    match stmt with
    | .Assign var_string e =>
      match evalExp host fuel e sm with
      | .error flt => .error flt
      | .ok ((new_var, js_ptr), sm1) =>
        match sm1.load (.named var_string) with
        | .error ge => .error (.err (.GcError ge))
        | .ok (js_var0, _) =>
          let js_var1 : JsVar := { js_var0 with t := new_var.t }
          let old_binding := js_var1.unique
          let js_var2 := deanonymize js_var1 var_string
          let sm2 := sm1.renameClosure old_binding js_var2.unique
          match sm2.store js_var2 js_ptr with
          | .error ge => .error (.err (.GcError ge))
          | .ok sm3 => .ok (((js_var2, js_ptr), none), sm3)
    | .BareExp e =>
      match evalExp host fuel e sm with
      | .error flt => .error flt
      | .ok (vv, sm1) => .ok ((vv, none), sm1)
    | .Decl var_string e =>
      match evalExp host fuel e sm with
      | .error flt => .error flt
      | .ok ((js_var, js_ptr), sm1) =>
        let old_binding := js_var.unique
        let js_var1 : JsVar := { js_var with binding := .named var_string }
        let sm2 := sm1.renameClosure old_binding js_var1.unique
        match sm2.alloc js_var1 js_ptr with
        | .error ge => .error (.err (.GcError ge))
        | .ok sm3 =>
          let (u, sm4) := scalarNew .JsUndef sm3
          .ok ((u, none), sm4)
    | .If condition if_block else_block =>
      match evalExp host fuel condition sm with
      | .error flt => .error flt
      | .ok ((v, _), sm1) =>
        if asBool v.t then evalStmt host fuel if_block sm1
        else
          match else_block with
          | some blk => evalStmt host fuel blk sm1
          | none =>
            let (u, sm2) := scalarNew .JsUndef sm1
            .ok ((u, none), sm2)
    | .Empty =>
      let (u, sm1) := scalarNew .JsUndef sm
      .ok ((u, none), sm1)
    | .Ret e =>
      match evalExp host fuel e sm with
      | .error flt => .error flt
      | .ok (js_var, sm1) => .ok ((js_var, some js_var), sm1)
    | .Seq s1 s2 =>
      match evalStmt host fuel s1 sm with
      | .error flt => .error flt
      | .ok (_, sm1) => evalStmt host fuel s2 sm1
    | .Throw e =>
      match evalExp host fuel e sm with
      | .error flt => .error flt
      | .ok ((var, ptr), _) => .error (.err (.JsVar (var, ptr)))
    | .Try _ => .error (.panic "not implemented")
    | .While condition block => evalWhile host fuel condition block none sm

/-- The `loop` of the `While` arm (src/eval/mod.rs lines 124-136), with the
loop-carried `ret_val` made explicit.  Both the condition and the body are
evaluated with `unwrap`, so a structured error there aborts the process. -/
def evalWhile (host : NativeHost) :
    Nat → Exp → Stmt → JsReturnValue → ScopeManager →
    Except Fault ((JsVarValue × JsReturnValue) × ScopeManager)
  | 0, _, _, _, _ => .error .outOfFuel
  | fuel + 1, condition, block, ret_val, sm =>
    match evalExp host fuel condition sm with
    | .error (.err _) => .error (.panic "called unwrap on an Err value")
    | .error flt => .error flt
    | .ok ((c, _), sm1) =>
      if asBool c.t then
        match evalStmt host fuel block sm1 with
        | .error (.err _) => .error (.panic "called unwrap on an Err value")
        | .error flt => .error flt
        | .ok ((_, v), sm2) => evalWhile host fuel condition block v sm2
      else
        let (u, sm2) := scalarNew .JsUndef sm1
        .ok ((u, ret_val), sm2)

/-- The argument-evaluation loop of the `Call` arm (src/eval/mod.rs lines
158-161): every argument expression, left to right, to completion. -/
def evalArgs (host : NativeHost) :
    Nat → List Exp → ScopeManager → Except Fault (List JsVarValue × ScopeManager)
  | 0, _, _ => .error .outOfFuel
  | _ + 1, [], sm => .ok ([], sm)
  | fuel + 1, e :: rest, sm =>
    match evalExp host fuel e sm with
    | .error flt => .error flt
    | .ok (v, sm1) =>
      match evalArgs host fuel rest sm1 with
      | .error flt => .error flt
      | .ok (vs, sm2) => .ok (v :: vs, sm2)

/-- The field-evaluation loop of the `Object` arm (src/eval/mod.rs lines
271-277): each field's value expression left to right; the heap half of each
field value is dropped, as in the source. -/
def evalFields (host : NativeHost) :
    Nat → List (String × Exp) → ScopeManager →
    Except Fault (List (JsKey × JsVar) × ScopeManager)
  | 0, _, _ => .error .outOfFuel
  | _ + 1, [], sm => .ok ([], sm)
  | fuel + 1, f :: rest, sm =>
    let f_key := JsKey.JsStr ⟨f.1⟩
    match evalExp host fuel f.2 sm with
    | .error flt => .error flt
    | .ok ((v, _), sm1) =>
      match evalFields host fuel rest sm1 with
      | .error flt => .error flt
      | .ok (kvs, sm2) => .ok ((f_key, v) :: kvs, sm2)

/-- Invocation of a selected `JsFnStruct` (src/eval/mod.rs lines 177-214):
open the call or closure scope, bind the parameters, run the body
(a structured error there aborts via `expect`), decide the escaping-closure
identity, close the scope passing that identity, and return the body's
return-signal value or a fresh `undefined`. -/
def callFunction (host : NativeHost) :
    Nat → JsFnStruct → JsVar → List JsVarValue → ScopeManager →
    Except Fault (JsVarValue × ScopeManager)
  | 0, _, _, _, _ => .error .outOfFuel
  | fuel + 1, js_fn_struct, fun_binding, args, sm =>
    match pushCallScope js_fn_struct fun_binding sm with
    | .error _ => .error (.panic "Unable to push closure scope")
    | .ok sm1 =>
      match bindArgs js_fn_struct.params args sm1 with
      | .error flt => .error flt
      | .ok sm2 =>
        match evalStmt host fuel js_fn_struct.stmt sm2 with
        | .error (.err _) => .error (.panic "Error running function body")
        | .error flt => .error flt
        | .ok ((_, v), sm3) =>
          match sm3.popScope (returningClosure v) false with
          | .error _ => .error (.panic "Unable to clear scope for function")
          | .ok sm4 =>
            let (u, sm5) := scalarNew .JsUndef sm4
            .ok (v.getD u, sm5)

/-- `eval_exp` (src/eval/mod.rs lines 141-298): evaluate one expression to a
`(Value, Option<HeapRef>)` pair. -/
def evalExp (host : NativeHost) :
    Nat → Exp → ScopeManager → Except Fault (JsVarValue × ScopeManager)
  | 0, _, _ => .error .outOfFuel
  | fuel + 1, e, sm =>
    match e with
    | .BinExp e1 op e2 =>
      match evalExp host fuel e1 sm with
      | .error flt => .error flt
      | .ok ((val1, _), sm1) =>
        match evalExp host fuel e2 sm1 with
        | .error flt => .error flt
        | .ok ((val2, _), sm2) => .ok (scalarNew (eval_binop op val1.t val2.t) sm2)
    | .Bool b => .ok (scalarNew (.JsBool b) sm)
    | .Call fun_name arg_exps =>
      match evalExp host fuel fun_name sm with
      | .error flt => .error flt
      | .ok ((fun_binding, fun_ptr), sm1) =>
        match evalArgs host fuel arg_exps sm1 with
        | .error flt => .error flt
        | .ok (args, sm2) =>
          match fun_ptr with
          | some (.JsFn fn) => callFunction host fuel fn fun_binding args sm2
          | some (.NativeFn id) => .ok (host id sm2 none args)
          | some _ => .error (.err (.TypeError "is not a function"))
          | none =>
            match sm2.load fun_binding.binding with
            | .ok (_, some (.JsFn fn)) => callFunction host fuel fn fun_binding args sm2
            | .ok _ => .error (.err (.TypeError "is not a function"))
            | .error _ => .error (.err (.ReferenceError "is not defined"))
    | .Defun opt_binding params body =>
      let js_fun : JsFnStruct := ⟨opt_binding, params, body⟩
      let (var, sm1) :=
        match opt_binding with
        | some s =>
          let (n, sm2) := sm.fresh
          (JsVar.bind s (.JsPtr (.JsFn opt_binding)) n, sm2)
        | none =>
          let (n, sm2) := sm.fresh
          (JsVar.new (.JsPtr (.JsFn none)) n, sm2)
      match sm1.alloc var (some (.JsFn js_fun)) with
      | .error ge => .error (.err (.GcError ge))
      | .ok sm2 => .ok ((var, some (.JsFn js_fun)), sm2)
    | .InstanceVar instance_exp var =>
      match evalExp host fuel instance_exp sm with
      | .error flt => .error flt
      | .ok ((instance_var, var_ptr), sm1) =>
        match instance_var.t with
        | .JsPtr _ =>
          match var_ptr with
          | some (.JsObj obj_struct) =>
            match obj_struct.get (.JsStr ⟨var⟩) with
            | some inner_var => .ok ((inner_var, none), sm1)
            | none => .ok (scalarNew .JsUndef sm1)
          | _ => .error (.panic "not implemented")
        | _ => .error (.panic "not implemented")
    | .Null => .ok (scalarNew .JsNull sm)
    | .Float f => .ok (scalarNew (.JsNum f) sm)
    | .Neg e1 =>
      match evalExp host fuel e1 sm with
      | .error flt => .error flt
      | .ok ((v, _), sm1) => .ok (scalarNew (.JsNum (-(asNumber v.t))) sm1)
    | .Pos e1 =>
      match evalExp host fuel e1 sm with
      | .error flt => .error flt
      | .ok ((v, _), sm1) => .ok (scalarNew (.JsNum (asNumber v.t)) sm1)
    | .PostDec e1 =>
      match evalNumUpdate e1 true (-1) sm with
      | .error flt => .error flt
      | .ok (v, sm1) => .ok ((v, none), sm1)
    | .PostInc e1 =>
      match evalNumUpdate e1 true 1 sm with
      | .error flt => .error flt
      | .ok (v, sm1) => .ok ((v, none), sm1)
    | .PreDec e1 =>
      match evalNumUpdate e1 false (-1) sm with
      | .error flt => .error flt
      | .ok (v, sm1) => .ok ((v, none), sm1)
    | .PreInc e1 =>
      match evalNumUpdate e1 false 1 sm with
      | .error flt => .error flt
      | .ok (v, sm1) => .ok ((v, none), sm1)
    | .NewObject _ _ => .error (.panic "not implemented")
    | .Object fields =>
      match evalFields host fuel fields sm with
      | .error flt => .error flt
      | .ok (kv_tuples, sm1) =>
        let obj : JsObjStruct := ⟨kv_tuples⟩
        let (n, sm2) := sm1.fresh
        .ok ((JsVar.new (.JsPtr .JsObj) n, some (.JsObj obj)), sm2)
    | .Str s =>
      let (n, sm1) := sm.fresh
      let var := JsVar.new (.JsPtr .JsStr) n
      match unescape s with
      | none => .error (.panic "Invalid string")
      | some t => .ok ((var, some (.JsStr ⟨t⟩)), sm1)
    | .TypeOf e1 =>
      let (n, sm1) := sm.fresh
      let var := JsVar.new (.JsPtr .JsStr) n
      match evalExp host fuel e1 sm1 with
      | .error flt => .error flt
      | .ok ((v, _), sm2) => .ok ((var, some (.JsStr ⟨typeOf v.t⟩)), sm2)
    | .Undefined => .ok (scalarNew .JsUndef sm)
    | .Var var_binding =>
      match sm.load (.named var_binding) with
      | .ok vv => .ok (vv, sm)
      | .error _ => .error (.panic "ReferenceError: \x7b\x7d is not defined")

end

/-- `eval_string` (src/eval/mod.rs lines 34-39), with the external parser
(`parse_Stmt`, not part of this repository) abstracted as its outcome: on a
parse failure return a `ParseError`; on success run the statement, abort on
a structured evaluation error (`expect`), and return the statement's value
with the return signal discarded. -/
def eval_string (host : NativeHost) (fuel : Nat) (parsed : Except String Stmt)
    (sm : ScopeManager) : Except Fault (JsVarValue × ScopeManager) :=
  match parsed with
  | .error e => .error (.err (.ParseError e))
  | .ok stmt =>
    match evalStmt host fuel stmt sm with
    | .ok ((vv, _), sm1) => .ok (vv, sm1)
    | .error (.err _) => .error (.panic "Error evaluating statement")
    | .error flt => .error flt

/-! Projections used to state properties of evaluation outcomes. -/

/-- The final store of a successful evaluation. -/
def resultStore {α : Type} : Except Fault (α × ScopeManager) → Option ScopeManager
  | .ok (_, sm) => some sm
  | _ => none

/-- The return signal of a successfully evaluated statement. -/
def resultSignal :
    Except Fault ((JsVarValue × JsReturnValue) × ScopeManager) → Option JsReturnValue
  | .ok ((_, sig), _) => some sig
  | _ => none

/-- The value half of a successfully evaluated expression. -/
def expValueVar : Except Fault (JsVarValue × ScopeManager) → Option JsVar
  | .ok ((v, _), _) => some v
  | _ => none

/-- Whether an outcome is a structured error (a Rust `Err` seen by the caller). -/
def isErrFault {α : Type} : Except Fault α → Bool
  | .error (.err _) => true
  | _ => false

/-- The unique identity currently stored under a name. -/
def storedUnique (sm : ScopeManager) (name : String) : Option Binding :=
  match sm.load (.named name) with
  | .ok (v, _) => some v.unique
  | .error _ => none

/-- The binding/content/heap-half triple each parameter ends up bound to:
parameters pair with the evaluated arguments in order, and the trailing ones
left without an argument get `undefined`.  This is the spec side of the
parameter-binding property. -/
def boundParams : List String → List JsVarValue → List (Binding × JsType × Option JsPtrEnum)
  | [], _ => []
  | p :: ps, [] => (.named p, .JsUndef, none) :: boundParams ps []
  | p :: ps, a :: rest => (.named p, a.1.t, a.2) :: boundParams ps rest

/-- The store produced by `var a = 1;` from the initial store. -/
def storeDeclA : ScopeManager :=
  { frames := [[{ var := { binding := .named "a", unique := .anon 0, t := .JsNum 1 },
                  ptr := none }]],
    saved := [], next := 2, log := [] }

/-- The store produced by `var i = 2;` from the initial store. -/
def storeDeclI : ScopeManager :=
  { frames := [[{ var := { binding := .named "i", unique := .anon 0, t := .JsNum 2 },
                  ptr := none }]],
    saved := [], next := 2, log := [] }

/-- `storeDeclI` after the first evaluation of `i--`. -/
def storeDeclI1 : ScopeManager :=
  { frames := [[{ var := { binding := .named "i", unique := .anon 0, t := .JsNum 1 },
                  ptr := none }]],
    saved := [], next := 2, log := [] }

/-- A store holding a binding `f` (a pointer-tagged function value with no
cached heap half), used as the call-site store of a scope-retention
scenario. -/
def storeF : ScopeManager :=
  { frames := [[{ var := { binding := .named "f", unique := .anon 0,
                           t := .JsPtr (.JsFn (some "f")) }, ptr := none }]],
    saved := [], next := 1, log := [] }

/-- The store produced by evaluating `function f() { return 7; }` from the
initial store. -/
def storeF7 : ScopeManager :=
  { frames := [[{ var := { binding := .named "f", unique := .anon 0,
                           t := .JsPtr (.JsFn (some "f")) },
                  ptr := some (.JsFn { name := some "f", params := [],
                                       stmt := .Ret (.Float 7) }) }]],
    saved := [], next := 1, log := [] }

/-- `function f() { return function() {}; }` as a function payload. -/
def fnRetClosure : JsFnStruct :=
  { name := some "f", params := [], stmt := .Ret (.Defun none [] .Empty) }

/-- `function() {}` as a function payload. -/
def fnAnonEmpty : JsFnStruct :=
  { name := none, params := [], stmt := .Empty }

/-- `function f() { return 7; }` as a function payload. -/
def fnRet7 : JsFnStruct :=
  { name := some "f", params := [], stmt := .Ret (.Float 7) }

/-- The escaping anonymous function value returned by `fnRetClosure`'s body
when invoked in `storeF`. -/
def escapingFnValue : JsVarValue :=
  (JsVar.new (.JsPtr (.JsFn none)) 1, some (.JsFn fnAnonEmpty))

/-- The store reached right after `fnRetClosure`'s body has run in the call
scope pushed on `storeF`. -/
def storeFBody : ScopeManager :=
  { frames := [[{ var := JsVar.new (.JsPtr (.JsFn none)) 1,
                  ptr := some (.JsFn fnAnonEmpty) }],
               [{ var := { binding := .named "f", unique := .anon 0,
                           t := .JsPtr (.JsFn (some "f")) }, ptr := none }]],
    saved := [], next := 2, log := [.pushScope] }

/-- `storeFBody` after the closing `pop_scope` that retains identity
`.anon 1`. -/
def storeFPopped : ScopeManager :=
  { frames := [[{ var := { binding := .named "f", unique := .anon 0,
                           t := .JsPtr (.JsFn (some "f")) }, ptr := none }]],
    saved := [{ var := JsVar.new (.JsPtr (.JsFn none)) 1,
                ptr := some (.JsFn fnAnonEmpty) }],
    next := 2, log := [.popScope (some (.anon 1)) false, .pushScope] }

/-! Lemmas about the modelled store. -/

theorem findSlot_binding {l : List Slot} {b : Binding} {sl : Slot}
    (h : findSlot l b = some sl) : sl.var.binding = b := by
  induction l with
  | nil => simp [findSlot] at h
  | cons hd tl ih =>
    unfold findSlot at h
    split at h
    · cases h; assumption
    · exact ih h

theorem findFrames_binding {fs : List (List Slot)} {b : Binding} {sl : Slot}
    (h : findFrames fs b = some sl) : sl.var.binding = b := by
  induction fs with
  | nil => simp [findFrames] at h
  | cons hd tl ih =>
    unfold findFrames at h
    cases hf : findSlot hd b with
    | some sl2 => rw [hf] at h; cases h; exact findSlot_binding hf
    | none => rw [hf] at h; exact ih h

theorem replaceSlot_of_findSlot {l : List Slot} {b : Binding} {sl : Slot}
    {v : JsVar} {p : Option JsPtrEnum} (h : findSlot l b = some sl)
    (hv : v.binding = b) :
    ∃ l2, replaceSlot l v p = some l2 ∧ findSlot l2 b = some ⟨v, p⟩ := by
  induction l with
  | nil => simp [findSlot] at h
  | cons hd tl ih =>
    unfold findSlot at h
    by_cases hb : hd.var.binding = b
    · refine ⟨⟨v, p⟩ :: tl, ?_, ?_⟩
      · unfold replaceSlot
        rw [if_pos (by rw [hv]; exact hb)]
      · unfold findSlot
        rw [if_pos hv]
    · rw [if_neg hb] at h
      obtain ⟨l2, h1, h2⟩ := ih h
      refine ⟨hd :: l2, ?_, ?_⟩
      · unfold replaceSlot
        rw [if_neg (by rw [hv]; exact hb), h1]
        rfl
      · unfold findSlot
        rw [if_neg hb]
        exact h2

theorem replaceSlot_none_of_findSlot_none {l : List Slot} {v : JsVar}
    {p : Option JsPtrEnum} (h : findSlot l v.binding = none) :
    replaceSlot l v p = none := by
  induction l with
  | nil => rfl
  | cons hd tl ih =>
    unfold findSlot at h
    split at h
    · cases h
    · unfold replaceSlot
      next hb =>
      rw [if_neg hb, ih h]
      rfl

theorem replaceFrames_of_findFrames {fs : List (List Slot)} {b : Binding} {sl : Slot}
    {v : JsVar} {p : Option JsPtrEnum} (h : findFrames fs b = some sl)
    (hv : v.binding = b) :
    ∃ fs2, replaceFrames fs v p = some fs2 ∧ findFrames fs2 b = some ⟨v, p⟩ := by
  induction fs with
  | nil => simp [findFrames] at h
  | cons hd tl ih =>
    unfold findFrames at h
    cases hf : findSlot hd b with
    | some sl2 =>
      obtain ⟨l2, h1, h2⟩ := replaceSlot_of_findSlot hf hv
      refine ⟨l2 :: tl, ?_, ?_⟩
      · unfold replaceFrames
        rw [h1]
      · unfold findFrames
        rw [h2]
    | none =>
      rw [hf] at h
      obtain ⟨fs2, h1, h2⟩ := ih h
      refine ⟨hd :: fs2, ?_, ?_⟩
      · unfold replaceFrames
        rw [replaceSlot_none_of_findSlot_none (hv ▸ hf), h1]
        rfl
      · unfold findFrames
        rw [hf, h2]

theorem renameSlot_self (u : Binding) (sl : Slot) : renameSlot u u sl = sl := by
  unfold renameSlot
  split
  · next h => rw [← h]
  · rfl

theorem renameClosure_self (sm : ScopeManager) (u : Binding) :
    sm.renameClosure u u = sm := by
  have h : renameSlot u u = fun sl => sl := funext (renameSlot_self u)
  unfold ScopeManager.renameClosure
  rw [h]
  simp

theorem load_binding {sm : ScopeManager} {b : Binding} {v : JsVar}
    {p : Option JsPtrEnum} (h : sm.load b = .ok (v, p)) : v.binding = b := by
  unfold ScopeManager.load at h
  cases hf : findFrames sm.frames b with
  | some sl => rw [hf] at h; cases h; exact findFrames_binding hf
  | none => rw [hf] at h; cases h

theorem load_findFrames {sm : ScopeManager} {b : Binding} {v : JsVar}
    {p : Option JsPtrEnum} (h : sm.load b = .ok (v, p)) :
    findFrames sm.frames b = some ⟨v, p⟩ := by
  unfold ScopeManager.load at h
  cases hf : findFrames sm.frames b with
  | some sl => rw [hf] at h; cases h; rfl
  | none => rw [hf] at h; cases h

/-! Claim C1. -/

/-- C1, counterexample: in `var a = 1; a = 2;` the evaluated right-hand side
arrives anonymous (its binding is an anonymous one), so per the claim the
stored identity of `a` should migrate; but the reassignment leaves the stored
unique identity of `a` unchanged (`.anon 0` before and after).  The claim's
exception clause ("unless the evaluated value arrived anonymous, in which
case the identity migrates") therefore contradicts the code, and even
contradicts the claim's own concrete example. -/
theorem assign_identity_migration_refuted :
    resultStore (evalStmt hostUndef 20 (.Decl "a" (.Float 1)) initSM) = some storeDeclA ∧
    expValueVar (evalExp hostUndef 20 (.Float 2) storeDeclA) =
      some { binding := .anon 2, unique := .anon 2, t := .JsNum 2 } ∧
    storedUnique storeDeclA "a" = some (.anon 0) ∧
    (resultStore (evalStmt hostUndef 20
        (.Seq (.Decl "a" (.Float 1)) (.Assign "a" (.Float 2))) initSM)).map
      (fun sm => storedUnique sm "a") = some (some (.anon 0)) :=
  ⟨rfl, rfl, rfl, rfl⟩

/-- C1 (amended): evaluating `Assign(name, expr)` when `name` is bound
overwrites the stored value's scalar/tag content with the evaluated
expression's content and always preserves the stored value's prior unique
identity — the deanonymization step acts on the loaded value, which already
carries `name`, so no identity migration happens regardless of how the
evaluated value arrived; in particular after `var a = 1; a = 2;` the unique
identity of `a` is unchanged. -/
theorem assign_preserves_stored_identity (host : NativeHost) (fuel : Nat)
    (name : String) (e : Exp) (sm sm1 : ScopeManager) (new_var : JsVar)
    (js_ptr : Option JsPtrEnum) (v0 : JsVar) (p0 : Option JsPtrEnum)
    (h1 : evalExp host fuel e sm = .ok ((new_var, js_ptr), sm1))
    (h2 : sm1.load (.named name) = .ok (v0, p0)) :
    ∃ sm2, evalStmt host (fuel+1) (.Assign name e) sm =
        .ok ((({ v0 with t := new_var.t }, js_ptr), none), sm2) ∧
      sm2.load (.named name) = .ok ({ v0 with t := new_var.t }, js_ptr) := by
  have hf : findFrames sm1.frames (.named name) = some ⟨v0, p0⟩ := load_findFrames h2
  have hb : v0.binding = .named name := load_binding h2
  obtain ⟨vb, vu, vt⟩ := v0
  have hb2 : vb = .named name := hb
  subst hb2
  obtain ⟨fs2, hr1, hr2⟩ :=
    replaceFrames_of_findFrames (v := ⟨.named name, vu, new_var.t⟩) (p := js_ptr) hf rfl
  refine ⟨{ sm1 with frames := fs2 }, ?_, ?_⟩
  · simp only [evalStmt, h1, h2, deanonymize, renameClosure_self, ScopeManager.store, hr1]
  · simp only [ScopeManager.load, hr2]

/-- C1 witness: the amended theorem applied to `a = 2` in the store left by
`var a = 1;`. -/
theorem assign_preserves_stored_identity_witness :
    ∃ sm2, evalStmt hostUndef 6 (.Assign "a" (.Float 2)) storeDeclA =
        .ok ((({ binding := .named "a", unique := .anon 0, t := .JsNum 2 }, none), none), sm2) ∧
      sm2.load (.named "a") =
        .ok ({ binding := .named "a", unique := .anon 0, t := .JsNum 2 }, none) :=
  assign_preserves_stored_identity hostUndef 5 "a" (.Float 2) storeDeclA
    { storeDeclA with next := 3 } (JsVar.new (.JsNum 2) 2) none
    { binding := .named "a", unique := .anon 0, t := .JsNum 1 } none rfl rfl

/-! Claim C5. -/

/-- C5, counterexample: evaluating the condition `1()` of a `while` loop
produces a structured reference error, but the loop converts it into a
process abort (`unwrap` panic) instead of returning it to the caller. -/
theorem while_failure_propagation_refuted :
    evalExp hostUndef 8 (.Call (.Float 1) []) initSM =
      .error (.err (.ReferenceError "is not defined")) ∧
    evalStmt hostUndef 10 (.While (.Call (.Float 1) []) .Empty) initSM =
      .error (.panic "called unwrap on an Err value") ∧
    isErrFault (evalStmt hostUndef 10 (.While (.Call (.Float 1) []) .Empty) initSM) = false :=
  ⟨rfl, rfl, rfl⟩

/-- C5 (amended): sub-expression failures in `Assign`, `BareExp` and binary
expressions propagate structurally to the caller; but a structured failure
while evaluating a `While` loop's condition or body, or while running a
called function's body, aborts the process (an `unwrap`/`expect` panic)
rather than being returned — and the closure-scope push and argument
allocation in a call likewise abort on failure (`expect` in
`callFunction`/`bindArgs`). -/
theorem failure_propagation_and_aborts (host : NativeHost) (fuel : Nat) :
    (∀ name e sm flt, evalExp host fuel e sm = .error flt →
      evalStmt host (fuel+1) (.Assign name e) sm = .error flt) ∧
    (∀ e sm flt, evalExp host fuel e sm = .error flt →
      evalStmt host (fuel+1) (.BareExp e) sm = .error flt) ∧
    (∀ e1 op e2 sm flt, evalExp host fuel e1 sm = .error flt →
      evalExp host (fuel+1) (.BinExp e1 op e2) sm = .error flt) ∧
    (∀ condition block sm err, evalExp host fuel condition sm = .error (.err err) →
      evalStmt host (fuel+2) (.While condition block) sm =
        .error (.panic "called unwrap on an Err value")) ∧
    (∀ condition block sm c p sm1 err,
      evalExp host fuel condition sm = .ok ((c, p), sm1) → asBool c.t = true →
      evalStmt host fuel block sm1 = .error (.err err) →
      evalStmt host (fuel+2) (.While condition block) sm =
        .error (.panic "called unwrap on an Err value")) ∧
    (∀ fn fun_binding args sm sm1 sm2 err,
      pushCallScope fn fun_binding sm = .ok sm1 →
      bindArgs fn.params args sm1 = .ok sm2 →
      evalStmt host fuel fn.stmt sm2 = .error (.err err) →
      callFunction host (fuel+1) fn fun_binding args sm =
        .error (.panic "Error running function body")) := by
  refine ⟨?_, ?_, ?_, ?_, ?_, ?_⟩
  · intro name e sm flt h
    simp only [evalStmt, h]
  · intro e sm flt h
    simp only [evalStmt, h]
  · intro e1 op e2 sm flt h
    simp only [evalExp, h]
  · intro condition block sm err h
    simp only [evalStmt, evalWhile, h]
  · intro condition block sm c p sm1 err h1 ht h2
    simp only [evalStmt, evalWhile, h1, ht, if_true, h2]
  · intro fn fun_binding args sm sm1 sm2 err hpush hbind hbody
    simp only [callFunction, hpush, hbind, hbody]

/-- C5 witness: a reference error arising in an assignment right-hand side is
returned structurally, while the same error arising in a `while` condition
aborts with a panic. -/
theorem failure_propagation_and_aborts_witness :
    evalStmt hostUndef 6 (.Assign "x" (.Call (.Float 1) [])) initSM =
      .error (.err (.ReferenceError "is not defined")) ∧
    evalStmt hostUndef 7 (.While (.Call (.Float 1) []) .Empty) initSM =
      .error (.panic "called unwrap on an Err value") :=
  ⟨(failure_propagation_and_aborts hostUndef 5).1 "x" (.Call (.Float 1) []) initSM
      (.err (.ReferenceError "is not defined")) rfl,
   (failure_propagation_and_aborts hostUndef 5).2.2.2.1 (.Call (.Float 1) []) .Empty initSM
      (.ReferenceError "is not defined") rfl⟩

/-! Claim C6. -/

/-- C6, counterexample: in
`var i = 2; while (i--) { if (i) return 5; }` the first iteration's body
produces a present return signal (`5`), the second iteration's body produces
none, and the loop's final return signal is `none` — the remembered signal is
overwritten by the absent one, where the claim predicts the last *captured*
(present) signal `5` to survive. -/
theorem while_return_signal_refuted :
    resultStore (evalStmt hostUndef 20 (.Decl "i" (.Float 2)) initSM) = some storeDeclI ∧
    evalExp hostUndef 20 (.PostDec (.Var "i")) storeDeclI =
      .ok (({ binding := .named "i", unique := .anon 0, t := .JsNum 2 }, none), storeDeclI1) ∧
    evalStmt hostUndef 20 (.If (.Var "i") (.Ret (.Float 5)) none) storeDeclI1 =
      .ok ((({ binding := .anon 2, unique := .anon 2, t := .JsNum 5 }, none),
            some ({ binding := .anon 2, unique := .anon 2, t := .JsNum 5 }, none)),
           { storeDeclI1 with next := 3 }) ∧
    resultSignal (evalStmt hostUndef 30
      (.Seq (.Decl "i" (.Float 2))
        (.While (.PostDec (.Var "i")) (.If (.Var "i") (.Ret (.Float 5)) none))) initSM) =
      some none :=
  ⟨rfl, rfl, rfl, rfl⟩

/-- C6 (amended): the condition is re-evaluated via truthiness before each
iteration; while it is true the body is evaluated and its return signal
*replaces* the remembered one each iteration, even when the body produced no
signal; once the condition is false the loop yields a fresh `undefined`
together with the final iteration's return signal, if any. -/
theorem while_signal_replaced (host : NativeHost) (fuel : Nat) (condition : Exp)
    (block : Stmt) (ret_val : JsReturnValue) (sm : ScopeManager) (c : JsVar)
    (p : Option JsPtrEnum) (sm1 : ScopeManager)
    (hc : evalExp host fuel condition sm = .ok ((c, p), sm1)) :
    (asBool c.t = true → ∀ w sig sm2, evalStmt host fuel block sm1 = .ok ((w, sig), sm2) →
      evalWhile host (fuel+1) condition block ret_val sm =
        evalWhile host fuel condition block sig sm2) ∧
    (asBool c.t = false →
      evalWhile host (fuel+1) condition block ret_val sm =
        .ok (((scalarNew .JsUndef sm1).1, ret_val), (scalarNew .JsUndef sm1).2)) ∧
    evalStmt host (fuel+1) (.While condition block) sm =
      evalWhile host fuel condition block none sm := by
  refine ⟨?_, ?_, rfl⟩
  · intro ht w sig sm2 hb
    simp only [evalWhile, hc, ht, if_true, hb]
  · intro hfalse
    simp only [evalWhile, hc, hfalse, Bool.false_eq_true, if_false]

/-- C6 witness: one true-condition step with an empty body discards a
previously remembered (present) signal in favor of the body's absent one. -/
theorem while_signal_replaced_witness :
    evalWhile hostUndef 6 (.Bool true) .Empty
        (some (JsVar.new (.JsNum 9) 99, none)) initSM =
      evalWhile hostUndef 5 (.Bool true) .Empty none
        { initSM with next := 2 } :=
  (while_signal_replaced hostUndef 5 (.Bool true) .Empty
      (some (JsVar.new (.JsNum 9) 99, none)) initSM
      (JsVar.new (.JsBool true) 0) none { initSM with next := 1 } rfl).1 rfl
    (JsVar.new .JsUndef 1, none) none { initSM with next := 2 } rfl

/-! Claim C7. -/

/-- C7, counterexample: evaluating `Var "nosuch"` in the empty store aborts
the process with a panic (the `expect` on the failed load) instead of
returning a structured reference error to the caller. -/
theorem var_unresolved_structured_error_refuted :
    evalExp hostUndef 5 (.Var "nosuch") initSM =
      .error (.panic "ReferenceError: \x7b\x7d is not defined") ∧
    isErrFault (evalExp hostUndef 5 (.Var "nosuch") initSM) = false :=
  ⟨rfl, rfl⟩

/-- C7 (amended): a `Var(name)` expression resolves `name` against the
current scope and returns the stored value; an unresolved name aborts the
process with a panic carrying a reference-error message (it is not returned
to the caller as a structured error). -/
theorem var_unresolved_aborts (host : NativeHost) (fuel : Nat) (name : String)
    (sm : ScopeManager) (ge : GcError)
    (h : sm.load (.named name) = .error ge) :
    evalExp host (fuel+1) (.Var name) sm =
      .error (.panic "ReferenceError: \x7b\x7d is not defined") ∧
    isErrFault (evalExp host (fuel+1) (.Var name) sm) = false ∧
    (∀ sm2 v p, ScopeManager.load sm2 (.named name) = .ok (v, p) →
      evalExp host (fuel+1) (.Var name) sm2 = .ok ((v, p), sm2)) := by
  refine ⟨?_, ?_, ?_⟩
  · simp only [evalExp, h]
  · simp only [isErrFault, evalExp, h]
  · intro sm2 v p h2
    simp only [evalExp, h2]

/-- C7 witness: the amended theorem at `Var "nosuch"` in the empty store, and
at `Var "a"` in the store holding `a = 1`. -/
theorem var_unresolved_aborts_witness :
    (evalExp hostUndef 5 (.Var "nosuch") initSM =
      .error (.panic "ReferenceError: \x7b\x7d is not defined") ∧
    isErrFault (evalExp hostUndef 5 (.Var "nosuch") initSM) = false ∧
    (∀ sm2 v p, ScopeManager.load sm2 (.named "nosuch") = .ok (v, p) →
      evalExp hostUndef 5 (.Var "nosuch") sm2 = .ok ((v, p), sm2))) ∧
    evalExp hostUndef 5 (.Var "a") storeDeclA =
      .ok (({ binding := .named "a", unique := .anon 0, t := .JsNum 1 }, none), storeDeclA) := by
  have h := var_unresolved_aborts hostUndef 4 "nosuch" initSM
    (.unresolvedBinding (.named "nosuch")) rfl
  have h2 := var_unresolved_aborts hostUndef 4 "a" initSM
    (.unresolvedBinding (.named "a")) rfl
  exact ⟨h, h2.2.2 storeDeclA { binding := .named "a", unique := .anon 0, t := .JsNum 1 }
    none rfl⟩

/-! Claim C8. -/

/-- C8 (confirmed): a `Try` statement and a `NewObject` expression each fault
explicitly — the `unimplemented` abort carrying the "not implemented"
unsupported-feature condition — and never produce a value or silently
no-op. -/
theorem unimplemented_constructs_fault (host : NativeHost) (fuel : Nat)
    (try_body : Stmt) (ctor arg : Exp) (sm : ScopeManager) :
    evalStmt host (fuel+1) (.Try try_body) sm = .error (.panic "not implemented") ∧
    evalExp host (fuel+1) (.NewObject ctor arg) sm = .error (.panic "not implemented") ∧
    (∀ out, evalStmt host (fuel+1) (.Try try_body) sm ≠ .ok out) ∧
    (∀ out, evalExp host (fuel+1) (.NewObject ctor arg) sm ≠ .ok out) := by
  refine ⟨rfl, rfl, ?_, ?_⟩
  · intro out h
    exact absurd h (by simp [evalStmt])
  · intro out h
    exact absurd h (by simp [evalExp])

/-- C8 witness: the theorem applied to `try {}` and `new 1(2)` in the initial
store. -/
theorem unimplemented_constructs_fault_witness :
    evalStmt hostUndef 3 (.Try .Empty) initSM = .error (.panic "not implemented") ∧
    evalExp hostUndef 3 (.NewObject (.Float 1) (.Float 2)) initSM =
      .error (.panic "not implemented") :=
  ⟨(unimplemented_constructs_fault hostUndef 2 .Empty (.Float 1) (.Float 2) initSM).1,
   (unimplemented_constructs_fault hostUndef 2 .Empty (.Float 1) (.Float 2) initSM).2.1⟩

/-! Claim C2. -/

/-- C2 (confirmed): once a `Function` callee's body has been evaluated, the
call scope is closed by a `pop_scope` whose retained identity is the body's
return-signal value's unique identity exactly when that value is
pointer-tagged as a function (an escaping closure), and no identity
otherwise; the call's result is the return-signal value, or a fresh
`undefined` when the body produced no signal. -/
theorem call_scope_retention (host : NativeHost) (fuel : Nat) (fn : JsFnStruct)
    (fun_binding : JsVar) (args : List JsVarValue) (sm sm1 sm2 : ScopeManager)
    (w : JsVarValue) (v : JsReturnValue) (sm3 sm4 : ScopeManager)
    (hpush : pushCallScope fn fun_binding sm = .ok sm1)
    (hbind : bindArgs fn.params args sm1 = .ok sm2)
    (hbody : evalStmt host fuel fn.stmt sm2 = .ok ((w, v), sm3))
    (hpop : sm3.popScope (returningClosure v) false = .ok sm4) :
    callFunction host (fuel+1) fn fun_binding args sm =
      .ok (v.getD (scalarNew .JsUndef sm4).1, (scalarNew .JsUndef sm4).2) ∧
    sm4.log = .popScope
        (match v with
         | some (var, _) =>
           match var.t with
           | .JsPtr (.JsFn _) => some var.unique
           | _ => none
         | none => none) false :: sm3.log := by
  constructor
  · simp only [callFunction, hpush, hbind, hbody, hpop, scalarNew, ScopeManager.fresh]
  · unfold ScopeManager.popScope at hpop
    cases hf : sm3.frames with
    | nil => rw [hf] at hpop; cases hpop
    | cons f rest =>
      rw [hf] at hpop
      cases hpop
      show StoreOp.popScope (returningClosure v) false :: sm3.log = _
      cases v with
      | none => rfl
      | some vv => rfl

/-- C2 witness: the theorem applied to a call of `function f() { return
function() {}; }`, whose body returns an anonymous function value; the
recorded `pop_scope` retains that value's unique identity. -/
theorem call_scope_retention_witness :
    callFunction hostUndef 10 fnRetClosure
      (JsVar.bind "f" (.JsPtr (.JsFn (some "f"))) 0) [] storeF =
      .ok (escapingFnValue, { storeFPopped with next := 3 }) ∧
    storeFPopped.log = .popScope (some (.anon 1)) false :: [StoreOp.pushScope] := by
  have h := call_scope_retention hostUndef 9 fnRetClosure
    (JsVar.bind "f" (.JsPtr (.JsFn (some "f"))) 0) [] storeF storeF.pushScope
    storeF.pushScope escapingFnValue (some escapingFnValue) storeFBody storeFPopped
    rfl rfl rfl rfl
  exact ⟨h.1, h.2⟩

/-! Claim C3. -/

/-- C3 (confirmed): the callable of a `Call` is resolved in order: a `JsFn`
heap-ref is used directly; a `NativeFn` heap-ref is invoked immediately with
the scope, no receiver and the evaluated arguments, its result returned with
no further scope manipulation; any other present heap-ref is a type error;
with no heap-ref the callee's binding is loaded by name, where only a `JsFn`
is acceptable — another resolved value is a type error and an unresolved
name is a reference error. -/
theorem call_resolution_order (host : NativeHost) (fuel : Nat) (fun_name : Exp)
    (arg_exps : List Exp) (sm : ScopeManager) (fun_binding : JsVar)
    (fun_ptr : Option JsPtrEnum) (sm1 : ScopeManager) (args : List JsVarValue)
    (sm2 : ScopeManager)
    (h1 : evalExp host fuel fun_name sm = .ok ((fun_binding, fun_ptr), sm1))
    (h2 : evalArgs host fuel arg_exps sm1 = .ok (args, sm2)) :
    (∀ fn, fun_ptr = some (.JsFn fn) →
      evalExp host (fuel+1) (.Call fun_name arg_exps) sm =
        callFunction host fuel fn fun_binding args sm2) ∧
    (∀ id, fun_ptr = some (.NativeFn id) →
      evalExp host (fuel+1) (.Call fun_name arg_exps) sm = .ok (host id sm2 none args)) ∧
    (∀ o, fun_ptr = some (.JsObj o) →
      evalExp host (fuel+1) (.Call fun_name arg_exps) sm =
        .error (.err (.TypeError "is not a function"))) ∧
    (∀ st, fun_ptr = some (.JsStr st) →
      evalExp host (fuel+1) (.Call fun_name arg_exps) sm =
        .error (.err (.TypeError "is not a function"))) ∧
    (fun_ptr = none →
      evalExp host (fuel+1) (.Call fun_name arg_exps) sm =
        match sm2.load fun_binding.binding with
        | .ok (_, some (.JsFn fn)) => callFunction host fuel fn fun_binding args sm2
        | .ok _ => .error (.err (.TypeError "is not a function"))
        | .error _ => .error (.err (.ReferenceError "is not defined"))) := by
  refine ⟨?_, ?_, ?_, ?_, ?_⟩
  · intro fn h3
    subst h3
    simp only [evalExp, h1, h2]
  · intro id h3
    subst h3
    simp only [evalExp, h1, h2]
  · intro o h3
    subst h3
    simp only [evalExp, h1, h2]
  · intro st h3
    subst h3
    simp only [evalExp, h1, h2]
  · intro h3
    subst h3
    simp only [evalExp, h1, h2]

/-- C3 witness: the theorem applied to a direct call of a declared function
(using the `JsFn` heap-ref) and to a call of a string literal (a type
error). -/
theorem call_resolution_order_witness :
    evalExp hostUndef 11 (.Call (.Defun (some "f") [] (.Ret (.Float 7))) []) initSM =
      callFunction hostUndef 10 fnRet7
        (JsVar.bind "f" (.JsPtr (.JsFn (some "f"))) 0) [] storeF7 ∧
    evalExp hostUndef 11 (.Call (.Str "x") []) initSM =
      .error (.err (.TypeError "is not a function")) := by
  constructor
  · exact (call_resolution_order hostUndef 10 (.Defun (some "f") [] (.Ret (.Float 7))) []
      initSM (JsVar.bind "f" (.JsPtr (.JsFn (some "f"))) 0)
      (some (.JsFn fnRet7)) storeF7 [] storeF7 rfl rfl).1 fnRet7 rfl
  · exact (call_resolution_order hostUndef 10 (.Str "x") [] initSM
      (JsVar.new (.JsPtr .JsStr) 0) (some (.JsStr ⟨"x"⟩))
      { initSM with next := 1 } [] { initSM with next := 1 } rfl rfl).2.2.2.1 ⟨"x"⟩ rfl

/-! Claim C4. -/

/-- Parameter binding builds, slot by slot on top of the pushed frame, the
association described by `boundParams`: parameters in order, each bound
value renamed to the parameter, missing trailing arguments bound to
`undefined`, and no fault. -/
theorem bindArgs_spec (params : List String) :
    ∀ (args : List JsVarValue) (f : List Slot) (fs : List (List Slot)) (sv : List Slot)
      (nx : Nat) (lg : List StoreOp),
    ∃ (sl : List Slot) (n : Nat),
      bindArgs params args ⟨f :: fs, sv, nx, lg⟩ = .ok ⟨(sl ++ f) :: fs, sv, n, lg⟩ ∧
      sl.reverse.map (fun s => (s.var.binding, s.var.t, s.ptr)) = boundParams params args := by
  induction params with
  | nil =>
    intro args f fs sv nx lg
    exact ⟨[], nx, rfl, rfl⟩
  | cons p ps ih =>
    intro args f fs sv nx lg
    cases args with
    | nil =>
      obtain ⟨sl, n, hb, hm⟩ := ih []
        ((⟨⟨.named p, .anon nx, .JsUndef⟩, none⟩ : Slot) :: f) fs sv (nx+1) lg
      refine ⟨sl ++ [⟨⟨.named p, .anon nx, .JsUndef⟩, none⟩], n, ?_, ?_⟩
      · rw [show bindArgs (p :: ps) [] ⟨f :: fs, sv, nx, lg⟩ =
            bindArgs ps []
              ⟨((⟨⟨.named p, .anon nx, .JsUndef⟩, none⟩ : Slot) :: f) :: fs, sv, nx+1, lg⟩
          from rfl]
        rw [hb]
        simp
      · simp [boundParams, ← hm]
    | cons a rest =>
      obtain ⟨sl, n, hb, hm⟩ := ih rest
        ((⟨{ a.1 with binding := .named p }, a.2⟩ : Slot) :: f) fs sv nx lg
      refine ⟨sl ++ [⟨{ a.1 with binding := .named p }, a.2⟩], n, ?_, ?_⟩
      · rw [show bindArgs (p :: ps) (a :: rest) ⟨f :: fs, sv, nx, lg⟩ =
            bindArgs ps rest
              ⟨((⟨{ a.1 with binding := .named p }, a.2⟩ : Slot) :: f) :: fs, sv, nx, lg⟩
          from rfl]
        rw [hb]
        simp
      · simp [boundParams, ← hm]

/-- C4 (confirmed): for a `Call` of a function, every argument expression is
evaluated left-to-right to completion before invocation (a failing argument
is the call's whole outcome, whatever the parameter count), and each declared
parameter, in order, is bound to the corresponding evaluated argument with
its binding renamed to the parameter, missing trailing parameters being bound
to `undefined` rather than faulting. -/
theorem call_arguments_evaluated_and_bound (host : NativeHost) (fuel : Nat) :
    (∀ e rest sm, evalArgs host (fuel+1) (e :: rest) sm =
      match evalExp host fuel e sm with
      | .error flt => .error flt
      | .ok (v, sm1) =>
        match evalArgs host fuel rest sm1 with
        | .error flt => .error flt
        | .ok (vs, sm2) => .ok (v :: vs, sm2)) ∧
    (∀ fun_name arg_exps sm fb fp sm1 flt,
      evalExp host fuel fun_name sm = .ok ((fb, fp), sm1) →
      evalArgs host fuel arg_exps sm1 = .error flt →
      evalExp host (fuel+1) (.Call fun_name arg_exps) sm = .error flt) ∧
    (∀ params args f fs sv nx lg,
      ∃ (sl : List Slot) (n : Nat),
        bindArgs params args ⟨f :: fs, sv, nx, lg⟩ = .ok ⟨(sl ++ f) :: fs, sv, n, lg⟩ ∧
        sl.reverse.map (fun s => (s.var.binding, s.var.t, s.ptr)) =
          boundParams params args) := by
  refine ⟨?_, ?_, ?_⟩
  · intro e rest sm
    rfl
  · intro fun_name arg_exps sm fb fp sm1 flt h1 h2
    simp only [evalExp, h1, h2]
  · intro params args f fs sv nx lg
    exact bindArgs_spec params args f fs sv nx lg

/-- C4 witness: a failing argument expression decides the call's outcome
before any invocation, and binding two parameters to one argument names the
first slot after the first parameter with the argument's content and binds
the second to `undefined`. -/
theorem call_arguments_evaluated_and_bound_witness :
    evalExp hostUndef 6
        (.Call (.Defun (some "f") [] (.Ret (.Float 7))) [.Call (.Float 2) []]) initSM =
      .error (.err (.ReferenceError "is not defined")) ∧
    (∃ (sl : List Slot) (n : Nat),
      bindArgs ["x", "y"] [(JsVar.new (.JsNum 7) 5, none)] ⟨[[]], [], 6, []⟩ =
        .ok ⟨[sl ++ []], [], n, []⟩ ∧
      sl.reverse.map (fun s => (s.var.binding, s.var.t, s.ptr)) =
        boundParams ["x", "y"] [(JsVar.new (.JsNum 7) 5, none)]) := by
  constructor
  · exact (call_arguments_evaluated_and_bound hostUndef 5).2.1
      (.Defun (some "f") [] (.Ret (.Float 7))) [.Call (.Float 2) []] initSM
      (JsVar.bind "f" (.JsPtr (.JsFn (some "f"))) 0) (some (.JsFn fnRet7))
      storeF7 (.err (.ReferenceError "is not defined")) rfl rfl
  · exact (call_arguments_evaluated_and_bound hostUndef 5).2.2
      ["x", "y"] [(JsVar.new (.JsNum 7) 5, none)] [] [] [] 6 []

/-! Claim C9. -/

/-- C9 (confirmed): member access `instanceExpr.prop` on a value that is
heap-tagged and backed by an `Object` payload yields the property's stored
value, or a fresh `undefined` when the property is missing; on a value not
backed by an `Object` payload it faults (the `unimplemented` abort) instead
of silently producing a value. -/
theorem instance_var_member_access (host : NativeHost) (fuel : Nat)
    (instance_exp : Exp) (var : String) (sm : ScopeManager) (instance_var : JsVar)
    (var_ptr : Option JsPtrEnum) (sm1 : ScopeManager)
    (h1 : evalExp host fuel instance_exp sm = .ok ((instance_var, var_ptr), sm1)) :
    (∀ tag obj_struct, instance_var.t = .JsPtr tag →
      var_ptr = some (.JsObj obj_struct) →
      evalExp host (fuel+1) (.InstanceVar instance_exp var) sm =
        match obj_struct.get (.JsStr ⟨var⟩) with
        | some inner_var => .ok ((inner_var, none), sm1)
        | none => .ok (scalarNew .JsUndef sm1)) ∧
    (∀ tag, instance_var.t = .JsPtr tag → (∀ o, var_ptr ≠ some (.JsObj o)) →
      evalExp host (fuel+1) (.InstanceVar instance_exp var) sm =
        .error (.panic "not implemented")) ∧
    ((∀ tag, instance_var.t ≠ .JsPtr tag) →
      evalExp host (fuel+1) (.InstanceVar instance_exp var) sm =
        .error (.panic "not implemented")) := by
  refine ⟨?_, ?_, ?_⟩
  · intro tag obj_struct ht hp
    subst hp
    simp only [evalExp, h1, ht]
  · intro tag ht hne
    simp only [evalExp, h1, ht]

  · intro h
    cases htt : instance_var.t with
    | JsBool b => simp only [evalExp, h1, htt]
    | JsUndef => simp only [evalExp, h1, htt]
    | JsNull => simp only [evalExp, h1, htt]
    | JsNum n => simp only [evalExp, h1, htt]
    | JsPtr tag => exact absurd htt (h tag)

/-- C9 witness: reading a present property of an object literal returns its
value, a missing property returns `undefined`, and member access on a number
aborts as unimplemented. -/
theorem instance_var_member_access_witness :
    evalExp hostUndef 11 (.InstanceVar (.Object [("k", .Float 3)]) "k") initSM =
      .ok (({ binding := .anon 0, unique := .anon 0, t := .JsNum 3 }, none),
           { initSM with next := 2 }) ∧
    evalExp hostUndef 11 (.InstanceVar (.Object [("k", .Float 3)]) "zz") initSM =
      .ok ((JsVar.new .JsUndef 2, none), { initSM with next := 3 }) ∧
    evalExp hostUndef 11 (.InstanceVar (.Float 1) "k") initSM =
      .error (.panic "not implemented") := by
  refine ⟨?_, ?_, ?_⟩
  · exact (instance_var_member_access hostUndef 10 (.Object [("k", .Float 3)]) "k" initSM
      (JsVar.new (.JsPtr .JsObj) 1)
      (some (.JsObj ⟨[(.JsStr ⟨"k"⟩, ⟨.anon 0, .anon 0, .JsNum 3⟩)]⟩))
      { initSM with next := 2 } rfl).1 .JsObj
      ⟨[(.JsStr ⟨"k"⟩, ⟨.anon 0, .anon 0, .JsNum 3⟩)]⟩ rfl rfl
  · exact (instance_var_member_access hostUndef 10 (.Object [("k", .Float 3)]) "zz" initSM
      (JsVar.new (.JsPtr .JsObj) 1)
      (some (.JsObj ⟨[(.JsStr ⟨"k"⟩, ⟨.anon 0, .anon 0, .JsNum 3⟩)]⟩))
      { initSM with next := 2 } rfl).1 .JsObj
      ⟨[(.JsStr ⟨"k"⟩, ⟨.anon 0, .anon 0, .JsNum 3⟩)]⟩ rfl rfl
  · exact (instance_var_member_access hostUndef 10 (.Float 1) "k" initSM
      (JsVar.new (.JsNum 1) 0) none { initSM with next := 1 } rfl).2.2
      (fun tag h => JsType.noConfusion h)

/-! Claim C10. -/

/-- C10 (confirmed): `eval_string` returns a structured error exactly when
parsing fails (a `ParseError`); on a successful parse it returns the
statement's value with the return signal discarded, and a structured
evaluation-time error from `eval_stmt` is turned into a process abort, never
returned to the caller. -/
theorem eval_string_error_boundary (host : NativeHost) (fuel : Nat)
    (parsed : Except String Stmt) (sm : ScopeManager) :
    (∀ msg, parsed = .error msg →
      eval_string host fuel parsed sm = .error (.err (.ParseError msg))) ∧
    (∀ stmt vv sig sm1, parsed = .ok stmt →
      evalStmt host fuel stmt sm = .ok ((vv, sig), sm1) →
      eval_string host fuel parsed sm = .ok (vv, sm1)) ∧
    (∀ stmt err, parsed = .ok stmt →
      evalStmt host fuel stmt sm = .error (.err err) →
      eval_string host fuel parsed sm = .error (.panic "Error evaluating statement")) ∧
    (∀ e, eval_string host fuel parsed sm = .error (.err e) →
      ∃ msg, parsed = .error msg ∧ e = .ParseError msg) := by
  refine ⟨?_, ?_, ?_, ?_⟩
  · intro msg h
    subst h
    rfl
  · intro stmt vv sig sm1 h1 h2
    subst h1
    simp only [eval_string, h2]
  · intro stmt err h1 h2
    subst h1
    simp only [eval_string, h2]
  · intro e h
    cases parsed with
    | error msg =>
      simp only [eval_string] at h
      refine ⟨msg, rfl, ?_⟩
      injection h with h2
      injection h2 with h3
      exact h3.symm
    | ok stmt =>
      simp only [eval_string] at h
      cases hs : evalStmt host fuel stmt sm with
      | ok r =>
        obtain ⟨⟨vv, sig⟩, sm1⟩ := r
        rw [hs] at h
        simp at h
      | error flt =>
        cases flt with
        | err er =>
          rw [hs] at h
          simp at h
        | panic m =>
          rw [hs] at h
          simp at h
        | outOfFuel =>
          rw [hs] at h
          simp at h

/-- C10 witness: a parse failure is the structured `ParseError`; a parsed
statement's value is returned with the signal discarded; a structured
evaluation error (assignment to an unbound name) becomes a process abort. -/
theorem eval_string_error_boundary_witness :
    eval_string hostUndef 10 (.error "bad token") initSM =
      .error (.err (.ParseError "bad token")) ∧
    eval_string hostUndef 10 (.ok (.BareExp (.Float 4))) initSM =
      .ok ((JsVar.new (.JsNum 4) 0, none), { initSM with next := 1 }) ∧
    eval_string hostUndef 10 (.ok (.Assign "x" (.Float 1))) initSM =
      .error (.panic "Error evaluating statement") := by
  refine ⟨?_, ?_, ?_⟩
  · exact (eval_string_error_boundary hostUndef 10 (.error "bad token") initSM).1
      "bad token" rfl
  · exact (eval_string_error_boundary hostUndef 10 (.ok (.BareExp (.Float 4))) initSM).2.1
      (.BareExp (.Float 4)) (JsVar.new (.JsNum 4) 0, none) none
      { initSM with next := 1 } rfl rfl
  · exact (eval_string_error_boundary hostUndef 10 (.ok (.Assign "x" (.Float 1))) initSM).2.2.1
      (.Assign "x" (.Float 1)) (.GcError (.unresolvedBinding (.named "x"))) rfl rfl

end JsRs
